import Mathlib

/-!
Verification of the incremental-synchronization core of the CMS hospital
ETL pipeline (src/cms_hospital_etl.py), as a shallow embedding.

Modelling conventions:
  * A catalog item (a JSON object in Python) is a structure whose possibly
    absent keys are Option fields; a dict access d[k] on an absent key is
    an explicit KeyError value.
  * Python exceptions are Except values.  A try/except block is a match on
    the body result.  Side effects performed before an exception are kept:
    the body threads an explicit ETLState and an error carries the state
    reached at the point of failure.
  * External effects (pandas read_csv, file writes, sqlite access) are
    driven by an Oracle that says which of them fail on this call; a failed
    write leaves the target untouched.
  * The sqlite table file_metadata is a list of rows; INSERT OR REPLACE
    replaces the row with the conflicting primary key.
  * The thread-pool fan-out of run (5 workers, order irrelevant per the
    design) is modelled by its sequential projection, a monadic fold over
    the work list.
  * str.lower is modelled characterwise by Char.toLower (ASCII; the claims
    only involve ASCII data).
-/

/-- A Python exception, tagged by its origin in the source. -/
inductive PyErr where
  | keyErrorIdentifier
  | keyErrorModified
  | keyErrorDownloadURL
  | indexErrorDistribution
  | dbError
  | fetchFailed
  | writeRawFailed
  | transformFailed
  | writeProcessedFailed
  | upsertFailed
deriving DecidableEq, Repr

/-- A table is abstracted to its list of column names: the only part of the
pandas DataFrame the core logic inspects (process_dataset, line 62). -/
abbrev Table := List String

/-- One row of the sqlite table file_metadata (cms_hospital_etl.py lines
37-44): file_id is the primary key. -/
structure Row where
  file_id : String
  filename : String
  last_modified : String
  last_processed : String
deriving DecidableEq, Repr

/-- A catalog item as consumed by the ETL: a JSON object whose keys may be
absent.  distribution holds the downloadURL value of each entry (none when
the entry lacks the key); an absent distribution key and an empty
distribution list both raise on line 52 and are both modelled as []. -/
structure Dataset where
  identifier : Option String
  modified : Option String
  title : Option String
  theme : List String
  distribution : List (Option String)
deriving DecidableEq, Repr

/-- Outcomes of the external effects used while processing one item. -/
structure Oracle where
  /-- Result of pd.read_csv(download_url) (line 59). -/
  fetch : Except PyErr Table
  /-- df.to_csv(raw_path) raises (line 60). -/
  writeRawFails : Bool
  /-- the column-rename statement raises (line 62). -/
  transformFails : Bool
  /-- df.to_csv(processed_path) raises (line 63). -/
  writeProcessedFails : Bool
  /-- the sqlite INSERT OR REPLACE raises (lines 66-70). -/
  upsertFails : Bool
  /-- the sqlite SELECT in needs_update raises (lines 106-110). -/
  storeReadFails : Bool
  /-- datetime.now().strftime of the current date (line 69). -/
  today : String

/-- The persistent state touched by the ETL: the two artifact directories,
the metadata table, the error log and a download counter. -/
structure ETLState where
  rawFiles : List (String × Table)
  processedFiles : List (String × Table)
  store : List Row
  log : List (String × PyErr)
  downloads : Nat
deriving DecidableEq, Repr

/-! ## Column normalization (to_snake_case, lines 46-48)

The two re.sub passes are reproduced directly.  re.sub scans left to
right; at each position it tries the pattern, replaces the leftmost match
and resumes after it, otherwise advances one character.  sub1 implements
the pattern (.)([A-Z][a-z]+) with replacement g1_g2 (the dot matches any
character except newline; [a-z]+ greedily takes the maximal lowercase
run); sub2 implements ([a-z0-9])([A-Z]) with replacement g1_g2.  sub1
recurses on a strict suffix of non-fixed length, so it takes an explicit
fuel equal to the input length, which always suffices since every step
consumes at least one character. -/

def isUpperCh (c : Char) : Bool := decide ('A' ≤ c) && decide (c ≤ 'Z')

def isLowerCh (c : Char) : Bool := decide ('a' ≤ c) && decide (c ≤ 'z')

def isLowerDigitCh (c : Char) : Bool :=
  isLowerCh c || (decide ('0' ≤ c) && decide (c ≤ '9'))

def sub1Go : Nat → List Char → List Char
  | 0, l => l
  | _ + 1, [] => []
  | _ + 1, [c] => [c]
  | fuel + 1, c :: u :: rest =>
    let lows := rest.takeWhile isLowerCh
    if c ≠ '\n' && isUpperCh u && !lows.isEmpty then
      c :: '_' :: u :: (lows ++ sub1Go fuel (rest.dropWhile isLowerCh))
    else
      c :: sub1Go fuel (u :: rest)

def sub1 (l : List Char) : List Char := sub1Go l.length l

def sub2 : List Char → List Char
  | [] => []
  | [c] => [c]
  | a :: b :: rest =>
    if isLowerDigitCh a && isUpperCh b then
      a :: '_' :: b :: sub2 rest
    else
      a :: sub2 (b :: rest)

def to_snake_case (name : String) : String :=
  String.mk ((sub2 (sub1 name.data)).map Char.toLower)

/-! ## Metadata store (lines 35-44, 66-70, 106-110) -/

/-- CREATE TABLE IF NOT EXISTS on an existing database: the rows are
unchanged (models _init_db, lines 35-44). -/
def init_db (tbl : List Row) : List Row := tbl

/-- INSERT OR REPLACE INTO file_metadata (lines 67-70): the row with the
conflicting primary key, if any, is replaced wholesale. -/
def upsertRow (tbl : List Row) (r : Row) : List Row :=
  r :: tbl.filter (fun x => !(x.file_id == r.file_id))

/-- SELECT last_modified FROM file_metadata WHERE file_id = ? followed by
fetchone (lines 107-110). -/
def lookupLastModified (tbl : List Row) (id : String) : Option String :=
  (tbl.find? (fun x => x.file_id == id)).map Row.last_modified

/-- The primary-key invariant: at most one row per file_id. -/
def uniqueKeys (tbl : List Row) : Prop := (tbl.map Row.file_id).Nodup

instance (tbl : List Row) : Decidable (uniqueKeys tbl) := by
  unfold uniqueKeys; infer_instance

/-! ## Filesystem state helpers -/

/-- (self.raw_dir / filename).exists() for filename = id ++ csv suffix. -/
def rawContains (st : ETLState) (id : String) : Bool :=
  (st.rawFiles.lookup id).isSome

def processedContains (st : ETLState) (id : String) : Bool :=
  (st.processedFiles.lookup id).isSome

/-- Overwrite-in-place file write into the raw directory (line 60). -/
def writeRaw (st : ETLState) (id : String) (t : Table) : ETLState :=
  { st with rawFiles := (id, t) :: st.rawFiles.filter (fun p => !(p.1 == id)) }

/-- Overwrite-in-place file write into the processed directory (line 63). -/
def writeProcessed (st : ETLState) (id : String) (t : Table) : ETLState :=
  { st with processedFiles :=
      (id, t) :: st.processedFiles.filter (fun p => !(p.1 == id)) }

/-- One download attempt (pd.read_csv on the remote URL, line 59). -/
def incDownloads (st : ETLState) : ETLState :=
  { st with downloads := st.downloads + 1 }

def filenameOf (id : String) : String := id ++ (".csv")

/-- The upsert performed on lines 66-70. -/
def doUpsert (st : ETLState) (id fn m today : String) : ETLState :=
  { st with store := upsertRow st.store ⟨id, fn, m, today⟩ }

/-- logger.error on line 77: the entry carries the offending identifier. -/
def logError (st : ETLState) (id : String) (e : PyErr) : ETLState :=
  { st with log := st.log ++ [(id, e)] }

/-! ## Change detector (needs_update, lines 100-116) -/

/-- The Python string order, used by the comparison on line 112:
lexicographic on code points.  (The builtin String order of Lean is the
same relation, but its Decidable instance does not reduce in the kernel,
so the comparison is written out.) -/
def pyStrLt : List Char → List Char → Bool
  | [], [] => false
  | [], _ :: _ => true
  | _ :: _, [] => false
  | a :: as', b :: bs' =>
    if a < b then true else if b < a then false else pyStrLt as' bs'

/-- Body of the try block on lines 105-116, given the already extracted
identifier: the SELECT may raise (oracle flag); if a row exists, line 112
reads dataset[modified-key] (inside the try, so a missing key is caught)
and compares the two date strings with the Python string order, which is
lexicographic on code points, as is the Lean String order. -/
def needsUpdateTry (st : ETLState) (readFails : Bool) (d : Dataset)
    (id : String) : Except PyErr Bool :=
  if readFails then Except.error PyErr.dbError
  else
    match lookupLastModified st.store id with
    | none => Except.ok true
    | some lm =>
      match d.modified with
      | none => Except.error PyErr.keyErrorModified
      | some m => Except.ok (pyStrLt lm.data m.data)

/-- needs_update after the identifier has been extracted: line 102 returns
true when the raw artifact is absent, before the try block; any error
inside the try yields true (lines 114-116). -/
def needsUpdateGiven (st : ETLState) (readFails : Bool) (d : Dataset)
    (id : String) : Bool :=
  if !(rawContains st id) then true
  else
    match needsUpdateTry st readFails d id with
    | Except.ok b => b
    | Except.error _ => true

/-- needs_update(dataset), lines 100-116.  Line 102 accesses
dataset[identifier-key] outside the try block, so a missing identifier
raises to the caller. -/
def needs_update (st : ETLState) (readFails : Bool) (d : Dataset) :
    Except PyErr Bool :=
  match d.identifier with
  | none => Except.error PyErr.keyErrorIdentifier
  | some id => Except.ok (needsUpdateGiven st readFails d id)

/-! ## Item processor (process_dataset, lines 50-77) -/

/-- Line 52: dataset[distribution-key][0][downloadURL-key].  An absent key
or an empty list raises; a first entry without the downloadURL key
raises. -/
def getDownloadURL (d : Dataset) : Except PyErr String :=
  match d.distribution with
  | [] => Except.error PyErr.indexErrorDistribution
  | entry :: _ =>
    match entry with
    | none => Except.error PyErr.keyErrorDownloadURL
    | some url => Except.ok url

/-- The try-block body of process_dataset (lines 51-74).  An error carries
the state reached when the exception was raised, since side effects
performed before it persist. -/
def processBody (st : ETLState) (o : Oracle) (d : Dataset) :
    Except (ETLState × PyErr) ETLState :=
  -- line 52: extract the download URL
  match getDownloadURL d with
  | Except.error e => Except.error (st, e)
  | Except.ok _url =>
  -- line 53: filename uses dataset[identifier-key]
  match d.identifier with
  | none => Except.error (st, PyErr.keyErrorIdentifier)
  | some id =>
  -- line 57: if not raw_path.exists() or self.needs_update(dataset)
  if !(rawContains st id) || needsUpdateGiven st o.storeReadFails d id then
    -- line 59: df = pd.read_csv(download_url)
    match o.fetch with
    | Except.error e => Except.error (incDownloads st, e)
    | Except.ok table =>
    -- line 60: df.to_csv(raw_path)
    if o.writeRawFails then
      Except.error (incDownloads st, PyErr.writeRawFailed)
    else
    -- line 62: df.columns = [self.to_snake_case(col) for col in df.columns]
    if o.transformFails then
      Except.error (writeRaw (incDownloads st) id table, PyErr.transformFailed)
    else
    -- line 63: df.to_csv(processed_path)
    if o.writeProcessedFails then
      Except.error (writeRaw (incDownloads st) id table,
        PyErr.writeProcessedFailed)
    else
    -- line 69: the upsert tuple reads dataset[modified-key]
    match d.modified with
    | none =>
      Except.error (writeProcessed (writeRaw (incDownloads st) id table) id
        (table.map to_snake_case), PyErr.keyErrorModified)
    | some m =>
    -- lines 66-70: INSERT OR REPLACE
    if o.upsertFails then
      Except.error (writeProcessed (writeRaw (incDownloads st) id table) id
        (table.map to_snake_case), PyErr.upsertFailed)
    else
      Except.ok (doUpsert
        (writeProcessed (writeRaw (incDownloads st) id table) id
          (table.map to_snake_case))
        id (filenameOf id) m o.today)
  else
    -- line 74: skip, already up to date (info log only)
    Except.ok st

/-- process_dataset (lines 50-77).  The except block on lines 76-77 logs
with dataset[identifier-key]: when the identifier key is absent, that very
access raises inside the except block and the new KeyError propagates to
the caller. -/
def process_dataset (st : ETLState) (o : Oracle) (d : Dataset) :
    Except PyErr ETLState :=
  match processBody st o d with
  | Except.ok s => Except.ok s
  | Except.error (s, e) =>
    match d.identifier with
    | some id => Except.ok (logError s id e)
    | none => Except.error PyErr.keyErrorIdentifier

/-! ## Catalog filter (fetch_hospital_datasets, lines 79-98) -/

/-- The outcome of requests.get on the catalog endpoint: a transport-level
exception, or a response with a status code whose json() call either
raises or yields the list of items. -/
inductive CatalogResponse where
  | transportError (msg : String)
  | response (statusCode : Nat) (jsonBody : Except String (List Dataset))

/-- The Python substring operator: pat in hay. -/
def containsSub (pat : List Char) : List Char → Bool
  | [] => pat.isEmpty
  | c :: t => pat.isPrefixOf (c :: t) || containsSub pat t

/-- Python str.lower, characterwise (the builtin String.map does not
reduce in the kernel, so the characters are mapped as a list). -/
def pyLower (s : String) : List Char := s.data.map Char.toLower

def hospitalKw : String := "hospital"

def emptyStr : String := ""

/-- The predicate of the list comprehension on lines 87-91: any theme tag
contains the keyword case-insensitively, or the title does; absent theme
and title keys default to [] and the empty string via dict.get. -/
def isHospitalDataset (d : Dataset) : Bool :=
  d.theme.any (fun t => containsSub hospitalKw.data (pyLower t))
  || containsSub hospitalKw.data (pyLower (d.title.getD emptyStr))

/-- fetch_hospital_datasets (lines 79-98): any exception in the try block
(transport failure, json decoding, filtering) and any non-200 status both
yield the empty list; nothing propagates. -/
def fetch_hospital_datasets (r : CatalogResponse) : List Dataset :=
  match r with
  | CatalogResponse.transportError _ => []
  | CatalogResponse.response status body =>
    if status ≠ 200 then []
    else
      match body with
      | Except.error _ => []
      | Except.ok datasets => datasets.filter isHospitalDataset

/-! ## Batch coordinator (run, lines 154-182) -/

/-- Line 163: the work-list comprehension.  needs_update can raise (missing
identifier key), and such an exception propagates out of run (the except
block on lines 180-182 logs and re-raises). -/
def workList (st : ETLState) (readFails : Bool) :
    List Dataset → Except PyErr (List Dataset)
  | [] => Except.ok []
  | d :: ds =>
    match needs_update st readFails d with
    | Except.error e => Except.error e
    | Except.ok b =>
      match workList st readFails ds with
      | Except.error e => Except.error e
      | Except.ok rest => Except.ok (if b then d :: rest else rest)

/-- run (lines 154-182).  check_existing_data (lines 157-160) only logs and
is omitted; the catalog response is a parameter and is passed through
fetch_hospital_datasets (line 162); an empty work list returns with no
further effect (lines 165-167); otherwise the thread-pool fan-out of
process_dataset over the work list (lines 171-176) is modelled by its
sequential projection.  The per-item oracle is a function of the item. -/
def run (st : ETLState) (readFails : Bool) (oracles : Dataset → Oracle)
    (r : CatalogResponse) : Except PyErr ETLState :=
  match workList st readFails (fetch_hospital_datasets r) with
  | Except.error e => Except.error e
  | Except.ok wl =>
    if wl.isEmpty then Except.ok st
    else wl.foldlM (fun s d => process_dataset s (oracles d) d) st

/-! ## Concrete data used by the witnesses -/

def idA : String := "A"

def idB : String := "B"

def urlA : String := "http-example"

def jan1 : String := "2024-01-01"

def jan2 : String := "2024-01-02"

def mar1 : String := "2024-03-01"

def hospTitle : String := "Hospital Readmissions"

/-- The empty initial state: empty directories, empty metadata table. -/
def st0 : ETLState := ⟨[], [], [], [], 0⟩

/-- An oracle on which every external effect succeeds. -/
def okOracle : Oracle := ⟨Except.ok [], false, false, false, false, false, jan1⟩

/-- An oracle on which the download itself fails. -/
def oFetchFail : Oracle :=
  ⟨Except.error PyErr.fetchFailed, false, false, false, false, false, jan1⟩

/-- A well-formed item, remote modification date jan2. -/
def dA : Dataset := ⟨some idA, some jan2, none, [], [some urlA]⟩

/-- The same item with remote modification date jan1. -/
def dAeq : Dataset := ⟨some idA, some jan1, none, [], [some urlA]⟩

/-- A malformed item: no identifier key at all. -/
def dNoId : Dataset := ⟨none, none, none, [], []⟩

/-- A malformed item with an identifier but an empty distribution list. -/
def dBadDist : Dataset := ⟨some idA, none, none, [], []⟩

/-- A catalog item that passes the hospital filter. -/
def dACat : Dataset := ⟨some idA, some mar1, some hospTitle, [], [some urlA]⟩

def rowA : Row := ⟨idA, filenameOf idA, jan1, jan1⟩

def rowB : Row := ⟨idB, filenameOf idB, jan2, jan2⟩

def rowACat : Row := ⟨idA, filenameOf idA, mar1, mar1⟩

/-- A state in which item A has been fully processed at jan1. -/
def stW : ETLState := ⟨[(idA, [])], [(idA, [])], [rowA], [], 0⟩

/-- A state in which item A has been fully processed at mar1. -/
def stSync : ETLState := ⟨[(idA, [])], [(idA, [])], [rowACat], [], 0⟩

/-- A catalog response listing exactly the item dACat with status 200. -/
def rCat : CatalogResponse :=
  CatalogResponse.response 200 (Except.ok [dACat])

/-! ## Helper lemmas -/

lemma store_incDownloads (st : ETLState) : (incDownloads st).store = st.store :=
  rfl

lemma store_writeRaw (st : ETLState) (id : String) (t : Table) :
    (writeRaw st id t).store = st.store := rfl

lemma store_writeProcessed (st : ETLState) (id : String) (t : Table) :
    (writeProcessed st id t).store = st.store := rfl

lemma store_logError (st : ETLState) (id : String) (e : PyErr) :
    (logError st id e).store = st.store := rfl

lemma rawContains_writeRaw_self (st : ETLState) (id : String) (t : Table) :
    rawContains (writeRaw st id t) id = true := by
  simp [rawContains, writeRaw, List.lookup]

lemma rawContains_writeProcessed (st : ETLState) (id x : String) (t : Table) :
    rawContains (writeProcessed st id t) x = rawContains st x := rfl

lemma rawContains_doUpsert (st : ETLState) (id fn m td x : String) :
    rawContains (doUpsert st id fn m td) x = rawContains st x := rfl

lemma processedContains_writeProcessed_self (st : ETLState) (id : String)
    (t : Table) : processedContains (writeProcessed st id t) id = true := by
  simp [processedContains, writeProcessed, List.lookup]

lemma processedContains_doUpsert (st : ETLState) (id fn m td x : String) :
    processedContains (doUpsert st id fn m td) x = processedContains st x := rfl

/-- Exhaustive case analysis of the try-block body of process_dataset:
either it raises, and the state at the raise point has the metadata store
untouched; or the gate on line 57 was false and nothing happened; or every
step succeeded and the final state is the line-by-line composition of the
download, the two writes and the upsert. -/
lemma processBody_spec (st : ETLState) (o : Oracle) (d : Dataset) :
    (∃ s e, processBody st o d = Except.error (s, e) ∧ s.store = st.store) ∨
    processBody st o d = Except.ok st ∨
    (∃ id table m, d.identifier = some id ∧ d.modified = some m ∧
      o.fetch = Except.ok table ∧ o.writeRawFails = false ∧
      o.transformFails = false ∧ o.writeProcessedFails = false ∧
      o.upsertFails = false ∧
      processBody st o d = Except.ok (doUpsert
        (writeProcessed (writeRaw (incDownloads st) id table) id
          (table.map to_snake_case))
        id (filenameOf id) m o.today)) := by
  rcases hurl : getDownloadURL d with e | u
  · exact Or.inl ⟨st, e, by simp [processBody, hurl], rfl⟩
  rcases hid : d.identifier with _ | id
  · exact Or.inl ⟨st, PyErr.keyErrorIdentifier, by simp [processBody, hurl, hid], rfl⟩
  by_cases hg : (!(rawContains st id) ||
      needsUpdateGiven st o.storeReadFails d id) = true
  · rcases hf : o.fetch with e | table
    · exact Or.inl ⟨incDownloads st, e,
        by simp [processBody, hurl, hid, hg, hf], rfl⟩
    by_cases hwr : o.writeRawFails = true
    · exact Or.inl ⟨incDownloads st, PyErr.writeRawFailed,
        by simp [processBody, hurl, hid, hg, hf, hwr], rfl⟩
    simp only [Bool.not_eq_true] at hwr
    by_cases htr : o.transformFails = true
    · exact Or.inl ⟨writeRaw (incDownloads st) id table, PyErr.transformFailed,
        by simp [processBody, hurl, hid, hg, hf, hwr, htr], rfl⟩
    simp only [Bool.not_eq_true] at htr
    by_cases hwp : o.writeProcessedFails = true
    · exact Or.inl ⟨writeRaw (incDownloads st) id table,
        PyErr.writeProcessedFailed,
        by simp [processBody, hurl, hid, hg, hf, hwr, htr, hwp], rfl⟩
    simp only [Bool.not_eq_true] at hwp
    rcases hm : d.modified with _ | m
    · exact Or.inl ⟨writeProcessed (writeRaw (incDownloads st) id table) id
        (table.map to_snake_case), PyErr.keyErrorModified,
        by simp [processBody, hurl, hid, hg, hf, hwr, htr, hwp, hm], rfl⟩
    by_cases hu : o.upsertFails = true
    · exact Or.inl ⟨writeProcessed (writeRaw (incDownloads st) id table) id
        (table.map to_snake_case), PyErr.upsertFailed,
        by simp [processBody, hurl, hid, hg, hf, hwr, htr, hwp, hm, hu], rfl⟩
    simp only [Bool.not_eq_true] at hu
    exact Or.inr (Or.inr ⟨id, table, m, rfl, rfl, rfl, hwr, htr, hwp, hu,
      by simp [processBody, hurl, hid, hg, hf, hwr, htr, hwp, hm, hu]⟩)
  · refine Or.inr (Or.inl ?_)
    simp only [Bool.not_eq_true] at hg
    simp [processBody, hurl, hid, hg]

lemma find?_filter_ne (tbl : List Row) (key id : String) (hne : id ≠ key) :
    (tbl.filter (fun x => !(x.file_id == key))).find?
        (fun x => x.file_id == id) =
      tbl.find? (fun x => x.file_id == id) := by
  induction tbl with
  | nil => rfl
  | cons a t ih =>
    by_cases ha : (a.file_id == key) = true
    · have hfa : (a.file_id == id) = false := by
        rw [beq_iff_eq] at ha
        rw [beq_eq_false_iff_ne, ha]
        exact fun h => hne h.symm
      simp [List.filter_cons, ha, List.find?_cons, hfa, ih]
    · simp only [Bool.not_eq_true] at ha
      by_cases hfa : (a.file_id == id) = true
      · simp [List.filter_cons, ha, List.find?_cons, hfa]
      · simp only [Bool.not_eq_true] at hfa
        simp [List.filter_cons, ha, List.find?_cons, hfa, ih]

lemma pyStrLt_irrefl (l : List Char) : pyStrLt l l = false := by
  induction l with
  | nil => rfl
  | cons a t ih => simp [pyStrLt, lt_irrefl, ih]

lemma needs_update_false_of_synced (st : ETLState) (d : Dataset)
    (id m : String) (sr : Row) (hid : d.identifier = some id)
    (hm : d.modified = some m) (hraw : rawContains st id = true)
    (hsr : st.store.find? (fun x => x.file_id == id) = some sr)
    (hlm : sr.last_modified = m) :
    needs_update st false d = Except.ok false := by
  simp [needs_update, hid, needsUpdateGiven, hraw, needsUpdateTry,
    lookupLastModified, hsr, hm, hlm, pyStrLt_irrefl]

lemma workList_nil_of (st : ETLState) (l : List Dataset)
    (H : ∀ d ∈ l, needs_update st false d = Except.ok false) :
    workList st false l = Except.ok [] := by
  induction l with
  | nil => rfl
  | cons d ds ih =>
    have hd := H d (List.mem_cons_self d ds)
    have hds := ih (fun x hx => H x (List.mem_cons_of_mem d hx))
    simp [workList, hd, hds]

/-- Claim C2: for an item whose raw artifact exists and whose identifier
has a stored row, with the store readable, needs_update returns true
exactly when the incoming modified string is lexically greater than the
stored last_modified string. -/
theorem needs_update_monotonic (st : ETLState) (d : Dataset) (id m : String)
    (sr : Row) (hid : d.identifier = some id) (hm : d.modified = some m)
    (hraw : rawContains st id = true)
    (hsr : st.store.find? (fun x => x.file_id == id) = some sr) :
    needs_update st false d =
      Except.ok (pyStrLt sr.last_modified.data m.data) ∧
    (needs_update st false d = Except.ok true ↔
      pyStrLt sr.last_modified.data m.data = true) := by
  constructor
  · simp [needs_update, hid, needsUpdateGiven, hraw, needsUpdateTry,
      lookupLastModified, hsr, hm]
  · simp [needs_update, hid, needsUpdateGiven, hraw, needsUpdateTry,
      lookupLastModified, hsr, hm]

/-- Witness for claim C2: with stored last_modified jan1, an incoming
modified of jan2 yields true and an equal incoming modified yields
false. -/
theorem needs_update_monotonic_witness :
    needs_update stW false dA = Except.ok true ∧
    needs_update stW false dAeq = Except.ok false := by
  constructor
  · exact (needs_update_monotonic stW dA idA jan2 rowA rfl rfl (by decide)
      (by decide)).2.mpr (by decide)
  · have h := (needs_update_monotonic stW dAeq idA jan1 rowA rfl rfl
      (by decide) (by decide)).1
    rw [h]
    rfl

/-- Claim C3: when the raw artifact file is absent, needs_update returns
true unconditionally, whatever the store holds and even when store reads
would fail. -/
theorem needs_update_missing_artifact (st : ETLState) (readFails : Bool)
    (d : Dataset) (id : String) (hid : d.identifier = some id)
    (hraw : rawContains st id = false) :
    needs_update st readFails d = Except.ok true := by
  simp [needs_update, hid, needsUpdateGiven, hraw]

/-- Witness for claim C3: a first-run item on the empty state needs an
update even though the store has a row for it under a failing reader. -/
theorem needs_update_missing_artifact_witness :
    needs_update st0 true dA = Except.ok true :=
  needs_update_missing_artifact st0 true dA idA rfl (by decide)

/-- Claim C4: when the raw artifact exists and the store read raises, the
error is swallowed and needs_update answers true, never false and never an
exception. -/
theorem needs_update_store_error (st : ETLState) (d : Dataset) (id : String)
    (hid : d.identifier = some id) (hraw : rawContains st id = true) :
    needs_update st true d = Except.ok true := by
  simp [needs_update, hid, needsUpdateGiven, hraw, needsUpdateTry]

/-- Witness for claim C4: on a fully synced state with a failing store
reader, needs_update still answers true. -/
theorem needs_update_store_error_witness :
    needs_update stW true dA = Except.ok true :=
  needs_update_store_error stW dA idA rfl (by decide)

/-- Claim C10: the gate on line 57 of process_dataset, which re-tests raw
artifact existence before calling needs_update, is extensionally equal to
needs_update alone, because needs_update already returns true whenever the
raw artifact is absent. -/
theorem gate_redundant_equiv (st : ETLState) (readFails : Bool) (d : Dataset)
    (id : String) :
    (!(rawContains st id) || needsUpdateGiven st readFails d id) =
      needsUpdateGiven st readFails d id := by
  cases hraw : rawContains st id with
  | false => simp [needsUpdateGiven, hraw]
  | true => simp [hraw]

/-- Claim C1: batch idempotence.  If every candidate of the catalog is
already fully processed in the current state (raw and processed artifacts
on disk and a metadata row whose last_modified equals the incoming
modified value), then the work-list comprehension of run is empty,
needs_update answering false for every item, run returns the state
unchanged, and the download counter does not move. -/
theorem run_idempotent (st : ETLState) (oracles : Dataset → Oracle)
    (r : CatalogResponse)
    (H : ∀ d ∈ fetch_hospital_datasets r, ∃ id m,
      d.identifier = some id ∧ d.modified = some m ∧
      rawContains st id = true ∧ processedContains st id = true ∧
      ∃ sr, st.store.find? (fun x => x.file_id == id) = some sr ∧
        sr.last_modified = m) :
    workList st false (fetch_hospital_datasets r) = Except.ok [] ∧
    run st false oracles r = Except.ok st ∧
    (∀ s, run st false oracles r = Except.ok s →
      s.downloads = st.downloads) := by
  have hwl : workList st false (fetch_hospital_datasets r) = Except.ok [] := by
    apply workList_nil_of
    intro d hd
    rcases H d hd with ⟨id, m, hid, hm, hraw, _hproc, sr, hsr, hlm⟩
    exact needs_update_false_of_synced st d id m sr hid hm hraw hsr hlm
  have hrun : run st false oracles r = Except.ok st := by
    simp [run, hwl]
  refine ⟨hwl, hrun, ?_⟩
  intro s hs
  rw [hrun] at hs
  cases hs
  rfl

/-- Witness for claim C1: a catalog answering one hospital item at mar1,
against a state where that item is synced at mar1, runs to the identical
state. -/
theorem run_idempotent_witness :
    run stSync false (fun _ => okOracle) rCat = Except.ok stSync := by
  refine (run_idempotent stSync (fun _ => okOracle) rCat ?_).2.1
  intro d hd
  have hcat : fetch_hospital_datasets rCat = [dACat] := by decide
  rw [hcat] at hd
  have hd' : d = dACat := List.mem_singleton.mp hd
  subst hd'
  exact ⟨idA, mar1, rfl, rfl, by decide, by decide, rowACat, by decide, rfl⟩

/-- Claim C5: the metadata upsert for an item is executed only after both
artifact writes completed.  If the fetch, the transform or either file
write fails, the whole store, in particular the row for the identifier, is
left as it was; and whenever the stored row for the identifier changed
across a successful call, both the raw and the processed artifact exist in
the final state. -/
theorem record_after_artifacts (st : ETLState) (o : Oracle) (d : Dataset)
    (s : ETLState) (hok : process_dataset st o d = Except.ok s) :
    ((o.fetch.isOk = false ∨ o.writeRawFails = true ∨
      o.transformFails = true ∨ o.writeProcessedFails = true) →
      s.store = st.store) ∧
    (∀ id, d.identifier = some id →
      lookupLastModified s.store id ≠ lookupLastModified st.store id →
      rawContains s id = true ∧ processedContains s id = true) := by
  rcases processBody_spec st o d with ⟨s', e, hb, hst⟩ | hb |
    ⟨id, table, m, hid, hm, hf, hwr, htr, hwp, hu, hb⟩
  · cases hids : d.identifier with
    | none => simp [process_dataset, hb, hids] at hok
    | some id =>
      simp [process_dataset, hb, hids] at hok
      subst hok
      constructor
      · intro _
        rw [store_logError, hst]
      · intro id' _ hne
        exact absurd (by rw [store_logError, hst]) hne
  · simp [process_dataset, hb] at hok
    subst hok
    exact ⟨fun _ => rfl, fun id' _ hne => absurd rfl hne⟩
  · simp [process_dataset, hb] at hok
    subst hok
    constructor
    · intro hfail
      exfalso
      rcases hfail with h | h | h | h
      · rw [hf] at h
        simp [Except.isOk, Except.toBool] at h
      · rw [h] at hwr
        cases hwr
      · rw [h] at htr
        cases htr
      · rw [h] at hwp
        cases hwp
    · intro id' hid' _
      rw [hid] at hid'
      injection hid' with hid2
      subst hid2
      exact ⟨by simp [rawContains_doUpsert, rawContains_writeProcessed,
          rawContains_writeRaw_self],
        by simp [processedContains_doUpsert,
          processedContains_writeProcessed_self]⟩

/-- Witness for claim C5: a failing download on the empty state leaves the
store empty; the final state only gains a log entry and the download
count. -/
theorem record_after_artifacts_witness :
    process_dataset st0 oFetchFail dA =
      Except.ok ⟨[], [], [], [(idA, PyErr.fetchFailed)], 1⟩ ∧
    (⟨[], [], [], [(idA, PyErr.fetchFailed)], 1⟩ : ETLState).store =
      st0.store :=
  ⟨rfl, (record_after_artifacts st0 oFetchFail dA
    ⟨[], [], [], [(idA, PyErr.fetchFailed)], 1⟩ rfl).1 (Or.inl rfl)⟩

/-- Claim C6, amended: for every item that has an identifier field, any
exception raised inside the body of process_dataset is caught there; the
call returns normally, and when the body raised the returned state carries
a log entry naming the offending identifier.  (As stated over every
malformed item the claim is false: see the counterexample below, where the
except block itself raises.) -/
theorem process_dataset_contained (st : ETLState) (o : Oracle) (d : Dataset)
    (id : String) (hid : d.identifier = some id) :
    (∃ s, process_dataset st o d = Except.ok s) ∧
    (∀ s e, processBody st o d = Except.error (s, e) →
      process_dataset st o d = Except.ok (logError s id e)) := by
  cases hb : processBody st o d with
  | ok s =>
    refine ⟨⟨s, by simp [process_dataset, hb]⟩, ?_⟩
    intro s' e' h
    simp at h
  | error p =>
    obtain ⟨s, e⟩ := p
    refine ⟨⟨logError s id e, by simp [process_dataset, hb, hid]⟩, ?_⟩
    intro s' e' h
    injection h with h2
    injection h2 with h3 h4
    subst h3
    subst h4
    simp [process_dataset, hb, hid]

/-- Witness for claim C6: an item with an identifier but an empty
distribution list raises inside the body, and process_dataset still
returns normally. -/
theorem process_dataset_contained_witness :
    dBadDist.identifier = some idA ∧
    ∃ s, process_dataset st0 okOracle dBadDist = Except.ok s :=
  ⟨rfl, (process_dataset_contained st0 okOracle dBadDist idA rfl).1⟩

/-- Counterexample to claim C6 as stated: on an item with no identifier
field, the except block of process_dataset raises a KeyError while
formatting its log message, so the call propagates an exception instead of
returning. -/
theorem process_dataset_raises_on_missing_id :
    process_dataset st0 okOracle dNoId =
      Except.error PyErr.keyErrorIdentifier := rfl

/-- Claim C7, amended: to_snake_case maps PatientID to patient_id,
totalHCAHPSScore to total_hcahps_score and ZIPCode to zip_code; but a name
that already contains a separator followed by a capitalized word, such as
Facility Name, additionally gains an underscore between the separator and
the capitalized word, giving facility _name rather than facility name. -/
theorem to_snake_case_normalization :
    to_snake_case ("PatientID") = ("patient_id") ∧
    to_snake_case ("totalHCAHPSScore") = ("total_hcahps_score") ∧
    to_snake_case ("ZIPCode") = ("zip_code") ∧
    to_snake_case ("Facility Name") = ("facility _name") := by
  refine ⟨?_, ?_, ?_, ?_⟩ <;> decide

/-- Counterexample to claim C7 as stated: Facility Name is not lower-cased
without inserting an additional separator; the first re.sub pass matches
the space before Name and inserts an underscore. -/
theorem to_snake_case_separator_inserted :
    to_snake_case ("Facility Name") ≠ ("facility name") := by decide

/-- Claim C8: fetch_hospital_datasets returns the empty list and raises
nothing on a transport failure, on any non-200 status, and on a response
whose body decoding raises. -/
theorem fetch_softens_failures :
    (∀ msg, fetch_hospital_datasets (CatalogResponse.transportError msg)
      = []) ∧
    (∀ status body, status ≠ 200 →
      fetch_hospital_datasets (CatalogResponse.response status body) = []) ∧
    (∀ e, fetch_hospital_datasets
      (CatalogResponse.response 200 (Except.error e)) = []) := by
  refine ⟨fun msg => rfl, ?_, fun e => rfl⟩
  intro status body hs
  simp [fetch_hospital_datasets, hs]

/-- Witness for claim C8: a 500 status yields the empty candidate list even
though the body holds a matching item. -/
theorem fetch_softens_failures_witness :
    fetch_hospital_datasets
      (CatalogResponse.response 500 (Except.ok [dACat])) = [] :=
  fetch_softens_failures.2.1 500 (Except.ok [dACat]) (by decide)

/-- Claim C9: the metadata table keeps at most one row per identifier and
upsert is a wholesale replacement: starting from a table with unique keys,
the upserted table has unique keys, its row for the upserted key is
exactly the new row in all fields, every other key is untouched, and
re-running the idempotent initialization changes nothing. -/
theorem store_upsert_unique (tbl : List Row) (r : Row) (h : uniqueKeys tbl) :
    uniqueKeys (upsertRow tbl r) ∧
    (upsertRow tbl r).find? (fun x => x.file_id == r.file_id) = some r ∧
    (∀ id, id ≠ r.file_id →
      (upsertRow tbl r).find? (fun x => x.file_id == id) =
        tbl.find? (fun x => x.file_id == id)) ∧
    init_db tbl = tbl := by
  refine ⟨?_, ?_, ?_, rfl⟩
  · unfold uniqueKeys upsertRow
    rw [List.map_cons, List.nodup_cons]
    constructor
    · intro hmem
      obtain ⟨x, hxf, hxe⟩ := List.mem_map.mp hmem
      have hx2 := (List.mem_filter.mp hxf).2
      rw [Bool.not_eq_eq_eq_not, Bool.not_true, beq_eq_false_iff_ne] at hx2
      exact hx2 hxe
    · exact List.Nodup.sublist
        (List.Sublist.map Row.file_id (List.filter_sublist tbl)) h
  · have hr : ((fun x => x.file_id == r.file_id) r : Bool) = true := by simp
    simp [upsertRow, List.find?_cons_of_pos, hr]
  · intro id hne
    have hr : ((fun x => x.file_id == id) r : Bool) = false := by
      simp [beq_eq_false_iff_ne]
      exact fun hcontra => hne hcontra.symm
    unfold upsertRow
    rw [List.find?_cons_of_neg _ (by simp [hr])]
    exact find?_filter_ne tbl r.file_id id hne

/-- Witness for claim C9: upserting a second identifier into a one-row
table keeps keys unique and stores the new row wholesale. -/
theorem store_upsert_unique_witness :
    uniqueKeys (upsertRow [rowA] rowB) ∧
    (upsertRow [rowA] rowB).find? (fun x => x.file_id == rowB.file_id) =
      some rowB :=
  ⟨(store_upsert_unique [rowA] rowB (by decide)).1,
   (store_upsert_unique [rowA] rowB (by decide)).2.1⟩
